import Mathlib

/-!
Verification of the simulation core of `jump_and_run.py` (a side-scrolling
platform game) against its specification.

Embedding conventions:
* Python floats are modelled as `ℚ`; all arithmetic in the source is exact
  on the values the claims exercise, so rational arithmetic is faithful.
* Python `int(...)` (truncation toward zero) is `pyInt`.
* `pygame.Rect` stores integer coordinates; `PRect` mirrors it, and
  `colliderect` is pygame's strict-overlap test (edge contact does not
  collide, rects with a zero extent never collide).
* The process-wide `random` generator is modelled as a stream of naturals,
  `Rng`; `randint a b` maps one draw into `[a, b]`, and the
  `random.random() < TEMP_PLATFORM_CHANCE` draw becomes a Boolean draw.
  The claims quantify over all random sequences, so only the ranges of the
  draws matter.
* The `while` loop of `World.generate_until` is unrolled on fuel: every
  terminating run of the source loop is `generate_until` at a large enough
  fuel, and the generation invariants are proved for every fuel.
-/

namespace JumpRun

/-! ## Settings (module-level constants of the source) -/

def SCREEN_WIDTH : ℚ := 980
def SCREEN_HEIGHT : ℚ := 560
def GRAVITY : ℚ := 2000
def PLAYER_SPEED : ℚ := 280
def PLAYER_JUMP_VELOCITY : ℚ := 750
def PLATFORM_MIN_WIDTH : ℤ := 60
def PLATFORM_MAX_WIDTH : ℤ := 300
def PLATFORM_MIN_GAP : ℤ := 60
def PLATFORM_MAX_GAP : ℤ := 120
def PLATFORM_MIN_Y : ℤ := 120
def PLATFORM_MAX_Y : ℤ := 560 - 60
def GEN_AHEAD : ℚ := 980 * 2
def CLEANUP_BEHIND : ℚ := 600
def TEMP_PLATFORM_LIFETIME : ℚ := 5

/-- Python `int()` on a float: truncation toward zero (for a negative
argument this is the ceiling, written here as `-⌊-q⌋`). -/
def pyInt (q : ℚ) : ℤ := if 0 ≤ q then ⌊q⌋ else -⌊-q⌋

/-- A `pygame.Rect`: integer position and extent. -/
structure PRect where
  x : ℤ
  y : ℤ
  w : ℤ
  h : ℤ
  deriving DecidableEq, Repr

/-- `pygame.Rect.colliderect`: strict overlap on both axes; rects with a
zero-sized extent never collide, and touching edges do not collide. -/
def colliderect (a b : PRect) : Bool :=
  !(a.w == 0) && !(a.h == 0) && !(b.w == 0) && !(b.h == 0) &&
  decide (a.x < b.x + b.w) && decide (b.x < a.x + a.w) &&
  decide (a.y < b.y + b.h) && decide (b.y < a.y + a.h)

/-! ## Platform -/

structure Platform where
  x : ℚ
  y : ℚ
  w : ℚ
  h : ℚ
  rect : PRect
  temporary : Bool
  timer : ℚ
  activated : Bool
  deriving DecidableEq, Repr

/-- `Platform.__init__(x, y, w, h=20, temporary=False)`.  The source
initialises `timer = 2.0` and `activated = False`; the rect is the integer
image of the geometry (all call sites pass integral values). -/
def Platform.init (x y w h : ℚ) (temporary : Bool) : Platform :=
  { x := x, y := y, w := w, h := h,
    rect := { x := pyInt x, y := pyInt y, w := pyInt w, h := pyInt h },
    temporary := temporary, timer := 2, activated := false }

/-! ## Player -/

structure Player where
  x : ℚ
  y : ℚ
  w : ℚ
  h : ℚ
  vx : ℚ
  vy : ℚ
  on_ground : Bool
  rect : PRect
  deriving DecidableEq, Repr

/-- `Player.__init__(x, y)`: 36×52 box, zero velocity, airborne. -/
def Player.init (x y : ℚ) : Player :=
  { x := x, y := y, w := 36, h := 52, vx := 0, vy := 0, on_ground := false,
    rect := { x := pyInt x, y := pyInt y, w := 36, h := 52 } }

/-- `Player.apply_input(keys, dt)`: the two key groups are abstracted to
the flags `left` and `right`; `target_vx` starts at 0, each pressed
direction adds `±PLAYER_SPEED`, then `vx` moves toward the target by
`accel*dt`, clamped at the target. -/
def Player.apply_input (pl : Player) (left right : Bool) (dt : ℚ) : Player :=
  let t0 : ℚ := 0
  let t1 : ℚ := if left then t0 - PLAYER_SPEED else t0
  let target_vx : ℚ := if right then t1 + PLAYER_SPEED else t1
  let accel : ℚ := 2000
  if pl.vx < target_vx then
    { pl with vx := min (pl.vx + accel * dt) target_vx }
  else if target_vx < pl.vx then
    { pl with vx := max (pl.vx - accel * dt) target_vx }
  else pl

/-- `Player.jump()`. -/
def Player.jump (pl : Player) : Player :=
  if pl.on_ground then
    { pl with vy := -PLAYER_JUMP_VELOCITY, on_ground := false }
  else pl

/-- `Player.physics(dt)`: gravity, fall-speed clamp at 2000.0, position
integration, and the rect synchronised to `int(x), int(y)`. -/
def Player.physics (pl : Player) (dt : ℚ) : Player :=
  let vy1 := pl.vy + GRAVITY * dt
  let vy2 := min vy1 2000
  let x1 := pl.x + pl.vx * dt
  let y1 := pl.y + vy2 * dt
  { pl with
    vy := vy2,
    x := x1,
    y := y1,
    rect := { pl.rect with x := pyInt x1, y := pyInt y1 } }

/-! ## Random source

`random.randint` and `random.random` draw from one process-wide generator,
modelled as a stream of naturals with a cursor. -/

structure Rng where
  stream : ℕ → ℕ
  idx : ℕ

/-- Consume one draw. -/
def Rng.next (g : Rng) : ℕ × Rng :=
  (g.stream g.idx, { stream := g.stream, idx := g.idx + 1 })

/-- `random.randint(a, b)`: one draw, mapped into the inclusive range
`[a, b]`. -/
def randint (a b : ℤ) (g : Rng) : ℤ × Rng :=
  let ng := g.next
  (a + (ng.1 : ℤ) % (b - a + 1), ng.2)

/-- `random.random() < TEMP_PLATFORM_CHANCE`: one draw, yielding a Boolean
(the exact distribution is irrelevant to the claims; both outcomes occur). -/
def randChance (g : Rng) : Bool × Rng :=
  let ng := g.next
  (ng.1 % 100 < 15, ng.2)

/-! ## World -/

structure World where
  platforms : List Platform
  max_x : ℚ
  deriving Repr

/-- `World.__init__`: the ground platform and the frontier at its right
edge. -/
def World.init : World :=
  let ground := Platform.init (-1000) (SCREEN_HEIGHT - 40) 1500 80 false
  { platforms := [ground], max_x := ground.x + ground.w }

/-- `World.get_last_y`. -/
def World.get_last_y (w : World) : ℚ :=
  match w.platforms.getLast? with
  | some p => p.y
  | none => SCREEN_HEIGHT - 200

/-- One iteration of the `while` body of `World.generate_until`: draw a
width, a gap, a vertical delta (clamped into `[PLATFORM_MIN_Y,
PLATFORM_MAX_Y]`) and the temporary flag, append the platform, advance the
frontier to its right edge. -/
def World.gen_step (w : World) (g : Rng) : World × Rng :=
  let last_x := w.max_x
  let wg1 := randint PLATFORM_MIN_WIDTH PLATFORM_MAX_WIDTH g
  let width := wg1.1
  let wg2 := randint PLATFORM_MIN_GAP PLATFORM_MAX_GAP wg1.2
  let gap := wg2.1
  let wg3 := randint (-120) 120 wg2.2
  let new_y : ℚ := max (PLATFORM_MIN_Y : ℚ) (min (PLATFORM_MAX_Y : ℚ) (w.get_last_y + (wg3.1 : ℚ)))
  let wg4 := randChance wg3.2
  let p := Platform.init (last_x + (gap : ℚ)) new_y (width : ℚ) 20 wg4.1
  ({ platforms := w.platforms ++ [p], max_x := p.x + p.w }, wg4.2)

/-- `World.generate_until(limit_x)`: the `while self.max_x < limit_x` loop,
unrolled on fuel.  Any terminating run of the source loop equals this at a
sufficiently large fuel. -/
def World.generate_until (w : World) (limit_x : ℚ) (g : Rng) (fuel : ℕ) : World × Rng :=
  match fuel with
  | 0 => (w, g)
  | Nat.succ n =>
    if w.max_x < limit_x then
      let wg := w.gen_step g
      World.generate_until wg.1 limit_x wg.2 n
    else (w, g)

/-- Per-platform body of the loop in `World.update`: a temporary platform
touched by the player's rect becomes activated, and an activated temporary
platform accumulates `dt` on its timer. -/
def Platform.touch_update (player_rect : PRect) (dt : ℚ) (p : Platform) : Platform :=
  if p.temporary then
    let p1 := if colliderect player_rect p.rect then { p with activated := true } else p
    if p1.activated then { p1 with timer := p1.timer + dt } else p1
  else p

/-- `World.update(dt, player)`: age temporary platforms, then drop the
expired ones (`temporary ∧ activated ∧ timer ≥ TEMP_PLATFORM_LIFETIME`). -/
def World.update (w : World) (dt : ℚ) (pl : Player) : World :=
  let ps := w.platforms.map (Platform.touch_update pl.rect dt)
  { w with
    platforms := ps.filter
      fun p => !(p.temporary && p.activated && decide (TEMP_PLATFORM_LIFETIME ≤ p.timer)) }

/-- `World.cleanup(cam_x)`: keep the platforms whose right edge is ahead of
`cam_x - CLEANUP_BEHIND`. -/
def World.cleanup (w : World) (cam_x : ℚ) : World :=
  { w with
    platforms := w.platforms.filter fun p => decide (cam_x - CLEANUP_BEHIND < p.x + p.w) }

/-! ## Collision resolution (`resolve_collisions`) -/

/-- The opening of the vertical pass: displace the rect by `int(vy*dt)` and
clear `on_ground`. -/
def vshift (pl : Player) (dt : ℚ) : Player :=
  { pl with
    rect := { pl.rect with y := pl.rect.y + pyInt (pl.vy * dt) },
    on_ground := false }

/-- Body of the vertical-pass loop for one platform: on overlap, snap the
rect's bottom to the platform's top when falling (landing), or its top to
the platform's bottom when rising, then zero `vy` and resynchronise `y`
from the rect. -/
def vert_hit (pl : Player) (p : Platform) : Player :=
  if colliderect pl.rect p.rect then
    let pl1 :=
      if 0 < pl.vy then
        { pl with
          rect := { pl.rect with y := p.rect.y - pl.rect.h },
          on_ground := true }
      else if pl.vy < 0 then
        { pl with rect := { pl.rect with y := p.rect.y + p.rect.h } }
      else pl
    { pl1 with vy := 0, y := (pl1.rect.y : ℚ) }
  else pl

/-- The vertical pass of `resolve_collisions`. -/
def vertical_pass (pl : Player) (platforms : List Platform) (dt : ℚ) : Player :=
  platforms.foldl vert_hit (vshift pl dt)

/-- The opening of the horizontal pass: displace the rect by `int(vx*dt)`. -/
def hshift (pl : Player) (dt : ℚ) : Player :=
  { pl with rect := { pl.rect with x := pl.rect.x + pyInt (pl.vx * dt) } }

/-- Body of the horizontal-pass loop for one platform: a lateral overlap
is lethal, the player is moved below the world. -/
def horiz_hit (pl : Player) (p : Platform) : Player :=
  if colliderect pl.rect p.rect then { pl with y := SCREEN_HEIGHT + 1000 } else pl

/-- The horizontal pass of `resolve_collisions`. -/
def horizontal_pass (pl : Player) (platforms : List Platform) (dt : ℚ) : Player :=
  platforms.foldl horiz_hit (hshift pl dt)

/-- `resolve_collisions(player, platforms, dt)`: the vertical pass, then
the horizontal pass, over the same platform list. -/
def resolve_collisions (pl : Player) (platforms : List Platform) (dt : ℚ) : Player :=
  horizontal_pass (vertical_pass pl platforms dt) platforms dt

/-! ## Helper lemmas -/

/-- Moving a value toward a target by a nonnegative amount, clamped at the
target, stays between the value and the target. -/
lemma clamp_between (v t a : ℚ) (ha : 0 ≤ a) :
    min v t ≤ (if v < t then min (v + a) t else if t < v then max (v - a) t else v) ∧
    (if v < t then min (v + a) t else if t < v then max (v - a) t else v) ≤ max v t := by
  rcases lt_trichotomy v t with h | h | h
  · rw [if_pos h]
    exact ⟨min_le_min (by linarith) le_rfl, (min_le_right _ _).trans (le_max_right _ _)⟩
  · rw [if_neg (by simp [h]), if_neg (by simp [h])]
    exact ⟨min_le_left _ _, le_max_left _ _⟩
  · rw [if_neg (not_lt.2 h.le), if_pos h]
    exact ⟨(min_le_right _ _).trans (le_max_right _ _), max_le_max (by linarith) le_rfl⟩

/-- The horizontal velocity produced by `Player.apply_input`, spelled out. -/
lemma apply_input_vx (pl : Player) (left right : Bool) (dt : ℚ) :
    (pl.apply_input left right dt).vx =
      if pl.vx < (if right then (if left then 0 - PLAYER_SPEED else 0) + PLAYER_SPEED
          else (if left then 0 - PLAYER_SPEED else 0)) then
        min (pl.vx + 2000 * dt)
          (if right then (if left then 0 - PLAYER_SPEED else 0) + PLAYER_SPEED
            else (if left then 0 - PLAYER_SPEED else 0))
      else if (if right then (if left then 0 - PLAYER_SPEED else 0) + PLAYER_SPEED
          else (if left then 0 - PLAYER_SPEED else 0)) < pl.vx then
        max (pl.vx - 2000 * dt)
          (if right then (if left then 0 - PLAYER_SPEED else 0) + PLAYER_SPEED
            else (if left then 0 - PLAYER_SPEED else 0))
      else pl.vx := by
  simp only [Player.apply_input]
  split_ifs <;> rfl

/-- A fold of the vertical-pass body over platforms none of which overlaps
the player's rect leaves the player unchanged. -/
lemma foldl_vert_hit_of_no_hit (ps : List Platform) (pl : Player)
    (h : ∀ p ∈ ps, colliderect pl.rect p.rect = false) :
    ps.foldl vert_hit pl = pl := by
  induction ps with
  | nil => rfl
  | cons p ps ih =>
    have hp : colliderect pl.rect p.rect = false := h p (List.mem_cons_self p ps)
    have hstep : vert_hit pl p = pl := by simp [vert_hit, hp]
    rw [List.foldl_cons, hstep]
    exact ih fun q hq => h q (List.mem_cons_of_mem p hq)

/-- Once the player's `vy` is zero and `y` agrees with the rect, the
vertical-pass body is the identity, whatever platforms follow. -/
lemma foldl_vert_hit_of_settled (ps : List Platform) (pl : Player)
    (h0 : pl.vy = 0) (h1 : pl.y = (pl.rect.y : ℚ)) :
    ps.foldl vert_hit pl = pl := by
  induction ps with
  | nil => rfl
  | cons p ps ih =>
    have hstep : vert_hit pl p = pl := by
      obtain ⟨x, y, w, h, vx, vy, og, rect⟩ := pl
      simp only at h0 h1
      subst h0
      subst h1
      by_cases hc : colliderect rect p.rect = true <;> simp [vert_hit, hc]
    rw [List.foldl_cons, hstep, ih]

/-- The horizontal-pass fold only ever rewrites `y`, to
`SCREEN_HEIGHT + 1000`, and does so exactly when some platform overlaps
the (fold-invariant) rect. -/
lemma foldl_horiz_hit_eq (ps : List Platform) (pl : Player) :
    ps.foldl horiz_hit pl =
      if ps.any (fun p => colliderect pl.rect p.rect) then
        { pl with y := SCREEN_HEIGHT + 1000 }
      else pl := by
  induction ps generalizing pl with
  | nil => simp
  | cons p ps ih =>
    obtain ⟨x, y, w, h, vx, vy, og, rect⟩ := pl
    by_cases hc : colliderect rect p.rect = true
    · have hstep : horiz_hit ⟨x, y, w, h, vx, vy, og, rect⟩ p =
          ⟨x, SCREEN_HEIGHT + 1000, w, h, vx, vy, og, rect⟩ := by
        simp [horiz_hit, hc]
      rw [List.foldl_cons, hstep, ih]
      simp [List.any_cons, hc]
    · have hstep : horiz_hit ⟨x, y, w, h, vx, vy, og, rect⟩ p =
          ⟨x, y, w, h, vx, vy, og, rect⟩ := by
        simp [horiz_hit, hc]
      rw [List.foldl_cons, hstep, ih]
      simp [List.any_cons, hc]

/-! ## Claim C6 -/

/-- Claim C6: for every `dt ≥ 0` and every body state, `Player.physics`
leaves `vy` no greater than the maximum fall speed 2000.0. -/
theorem physics_fall_speed_clamped (pl : Player) (dt : ℚ) (_h : 0 ≤ dt) :
    (pl.physics dt).vy ≤ 2000 :=
  min_le_right _ _

/-- Witness for C6 at the spawn state and `dt = 1/60`. -/
theorem physics_fall_speed_clamped_witness :
    ((Player.init 120 (SCREEN_HEIGHT - 180)).physics (1/60)).vy ≤ 2000 :=
  physics_fall_speed_clamped (Player.init 120 (SCREEN_HEIGHT - 180)) (1/60) (by norm_num)

/-! ## Claim C7 -/

/-- Claim C7: for every `dt ≥ 0`, every prior `vx` and every input-flag
combination, the `vx` produced by `apply_input` lies between the prior
`vx` and the target velocity (`+PLAYER_SPEED` for right only,
`-PLAYER_SPEED` for left only, 0 when neither or both are pressed), so it
never crosses past the target. -/
theorem apply_input_no_overshoot (pl : Player) (left right : Bool) (dt : ℚ) (h : 0 ≤ dt) :
    min pl.vx (if left = right then 0 else if right = true then PLAYER_SPEED else -PLAYER_SPEED)
        ≤ (pl.apply_input left right dt).vx ∧
      (pl.apply_input left right dt).vx
        ≤ max pl.vx (if left = right then 0 else if right = true then PLAYER_SPEED else -PLAYER_SPEED) := by
  have ha : (0 : ℚ) ≤ 2000 * dt := by positivity
  cases left <;> cases right <;>
    simp only [apply_input_vx, PLAYER_SPEED] <;>
    first
      | simpa using clamp_between pl.vx 0 (2000 * dt) ha
      | simpa using clamp_between pl.vx 280 (2000 * dt) ha
      | simpa using clamp_between pl.vx (-280) (2000 * dt) ha

/-- Witness for C7: right pressed at spawn velocity, `dt = 1/60`. -/
theorem apply_input_no_overshoot_witness :
    min (Player.init 120 380).vx 280
        ≤ ((Player.init 120 380).apply_input false true (1/60)).vx ∧
      ((Player.init 120 380).apply_input false true (1/60)).vx
        ≤ max (Player.init 120 380).vx 280 :=
  apply_input_no_overshoot (Player.init 120 380) false true (1/60) (by norm_num)

/-! ## Claim C8 -/

/-- Claim C8: `World.cleanup` is idempotent — cleaning twice at the same
camera position yields the same world as cleaning once. -/
theorem cleanup_idempotent (w : World) (cam_x : ℚ) :
    (w.cleanup cam_x).cleanup cam_x = w.cleanup cam_x := by
  cases w with
  | mk ps mx => simp [World.cleanup, List.filter_filter]

/-! ## Claim C10 -/

/-- Claim C10: when no platform overlaps the displaced bounding box in
either pass, `resolve_collisions` leaves `x`, `y`, `vx`, `vy` unchanged,
sets `on_ground` to false, and modifies only the rect (by the two integer
displacements). -/
theorem resolve_collisions_frame (pl : Player) (ps : List Platform) (dt : ℚ)
    (h1 : ∀ p ∈ ps, colliderect (vshift pl dt).rect p.rect = false)
    (h2 : ∀ p ∈ ps, colliderect (hshift (vshift pl dt) dt).rect p.rect = false) :
    (resolve_collisions pl ps dt).x = pl.x ∧
      (resolve_collisions pl ps dt).y = pl.y ∧
      (resolve_collisions pl ps dt).vx = pl.vx ∧
      (resolve_collisions pl ps dt).vy = pl.vy ∧
      (resolve_collisions pl ps dt).on_ground = false ∧
      (resolve_collisions pl ps dt).rect.x = pl.rect.x + pyInt (pl.vx * dt) ∧
      (resolve_collisions pl ps dt).rect.y = pl.rect.y + pyInt (pl.vy * dt) ∧
      (resolve_collisions pl ps dt).rect.w = pl.rect.w ∧
      (resolve_collisions pl ps dt).rect.h = pl.rect.h := by
  have hv : vertical_pass pl ps dt = vshift pl dt :=
    foldl_vert_hit_of_no_hit ps (vshift pl dt) h1
  have hany : ps.any (fun p => colliderect (hshift (vshift pl dt) dt).rect p.rect) = false := by
    rw [List.any_eq_false]
    intro p hp
    simp [h2 p hp]
  have hh : horizontal_pass (vshift pl dt) ps dt = hshift (vshift pl dt) dt := by
    rw [horizontal_pass, foldl_horiz_hit_eq, hany]
    rfl
  have hr : resolve_collisions pl ps dt = hshift (vshift pl dt) dt := by
    rw [resolve_collisions, hv, hh]
  rw [hr]
  exact ⟨rfl, rfl, rfl, rfl, rfl, rfl, rfl, rfl, rfl⟩

/-- Concrete fixture for the C10 witness: the player airborne above the
ground platform, no contact in either pass. -/
def c10pl : Player := Player.init 120 100

/-- Witness for C10 at an airborne player over the initial world. -/
theorem resolve_collisions_frame_witness :
    (resolve_collisions c10pl World.init.platforms (1/60)).x = c10pl.x ∧
      (resolve_collisions c10pl World.init.platforms (1/60)).y = c10pl.y ∧
      (resolve_collisions c10pl World.init.platforms (1/60)).vx = c10pl.vx ∧
      (resolve_collisions c10pl World.init.platforms (1/60)).vy = c10pl.vy ∧
      (resolve_collisions c10pl World.init.platforms (1/60)).on_ground = false ∧
      (resolve_collisions c10pl World.init.platforms (1/60)).rect.x
        = c10pl.rect.x + pyInt (c10pl.vx * (1/60)) ∧
      (resolve_collisions c10pl World.init.platforms (1/60)).rect.y
        = c10pl.rect.y + pyInt (c10pl.vy * (1/60)) ∧
      (resolve_collisions c10pl World.init.platforms (1/60)).rect.w = c10pl.rect.w ∧
      (resolve_collisions c10pl World.init.platforms (1/60)).rect.h = c10pl.rect.h :=
  resolve_collisions_frame c10pl World.init.platforms (1/60)
    (by norm_num [World.init, Platform.init, vshift, colliderect, pyInt, c10pl, Player.init,
      SCREEN_HEIGHT])
    (by norm_num [World.init, Platform.init, vshift, hshift, colliderect, pyInt, c10pl,
      Player.init, SCREEN_HEIGHT])

/-! ## Claim C4 -/

/-- Claim C4: in the horizontal pass of `resolve_collisions`, once the
horizontally displaced box overlaps any platform, the body's `y` is set to
`SCREEN_HEIGHT + 1000`, strictly beyond the death threshold
`SCREEN_HEIGHT + 400` used by the death check; `vx` and `x` are unchanged
and the rect is not pushed back (it keeps the full displacement). -/
theorem lateral_collision_lethal (pl : Player) (ps : List Platform) (dt : ℚ)
    (h : ∃ p ∈ ps, colliderect (hshift pl dt).rect p.rect = true) :
    (horizontal_pass pl ps dt).y = SCREEN_HEIGHT + 1000 ∧
      SCREEN_HEIGHT + 400 < (horizontal_pass pl ps dt).y ∧
      (horizontal_pass pl ps dt).vx = pl.vx ∧
      (horizontal_pass pl ps dt).x = pl.x ∧
      (horizontal_pass pl ps dt).rect.x = pl.rect.x + pyInt (pl.vx * dt) ∧
      (horizontal_pass pl ps dt).rect.y = pl.rect.y := by
  have hany : ps.any (fun p => colliderect (hshift pl dt).rect p.rect) = true := by
    rw [List.any_eq_true]
    obtain ⟨p, hp, hc⟩ := h
    exact ⟨p, hp, hc⟩
  have hh : horizontal_pass pl ps dt = { hshift pl dt with y := SCREEN_HEIGHT + 1000 } := by
    rw [horizontal_pass, foldl_horiz_hit_eq, hany]
    rfl
  rw [hh]
  refine ⟨rfl, ?_, rfl, rfl, rfl, rfl⟩
  show SCREEN_HEIGHT + 400 < SCREEN_HEIGHT + 1000
  norm_num

/-- Concrete fixture for the C4 witness: the player's box inside the
ground platform's side. -/
def c4pl : Player := Player.init 120 500

/-- Witness for C4: overlap with the ground platform kills. -/
theorem lateral_collision_lethal_witness :
    (horizontal_pass c4pl World.init.platforms (1/60)).y = SCREEN_HEIGHT + 1000 ∧
      SCREEN_HEIGHT + 400 < (horizontal_pass c4pl World.init.platforms (1/60)).y ∧
      (horizontal_pass c4pl World.init.platforms (1/60)).vx = c4pl.vx ∧
      (horizontal_pass c4pl World.init.platforms (1/60)).x = c4pl.x ∧
      (horizontal_pass c4pl World.init.platforms (1/60)).rect.x
        = c4pl.rect.x + pyInt (c4pl.vx * (1/60)) ∧
      (horizontal_pass c4pl World.init.platforms (1/60)).rect.y = c4pl.rect.y :=
  lateral_collision_lethal c4pl World.init.platforms (1/60)
    (⟨Platform.init (-1000) (SCREEN_HEIGHT - 40) 1500 80 false,
      by norm_num [World.init],
      by norm_num [World.init, Platform.init, hshift, colliderect, pyInt, c4pl, Player.init,
        SCREEN_HEIGHT]⟩)

/-! ## Claim C3 -/

/-- Claim C3 (amended): the vertical pass applies the displacement
`int(vy*dt)` to the rect and clears `on_ground`; then the FIRST platform
in stored order whose rect overlaps the displaced box settles the player:
falling (`vy > 0`) snaps the bottom edge to that platform's top and sets
`on_ground`, rising (`vy < 0`) snaps the top edge to that platform's
bottom, and in all cases `vy` becomes 0 and `y` is resynchronised from the
rect.  Later overlapping platforms cannot move the player again, because
`vy` is already 0. -/
theorem vertical_pass_first_overlap (pl : Player) (dt : ℚ) (l₁ l₂ : List Platform) (p : Platform)
    (hfirst : ∀ q ∈ l₁, colliderect (vshift pl dt).rect q.rect = false)
    (hp : colliderect (vshift pl dt).rect p.rect = true) :
    (vertical_pass pl (l₁ ++ p :: l₂) dt).vy = 0 ∧
      (vertical_pass pl (l₁ ++ p :: l₂) dt).y
        = ((vertical_pass pl (l₁ ++ p :: l₂) dt).rect.y : ℚ) ∧
      (0 < pl.vy →
        (vertical_pass pl (l₁ ++ p :: l₂) dt).rect.y = p.rect.y - pl.rect.h ∧
        (vertical_pass pl (l₁ ++ p :: l₂) dt).on_ground = true) ∧
      (pl.vy < 0 →
        (vertical_pass pl (l₁ ++ p :: l₂) dt).rect.y = p.rect.y + p.rect.h ∧
        (vertical_pass pl (l₁ ++ p :: l₂) dt).on_ground = false) ∧
      (pl.vy = 0 →
        (vertical_pass pl (l₁ ++ p :: l₂) dt).rect.y = pl.rect.y + pyInt (pl.vy * dt) ∧
        (vertical_pass pl (l₁ ++ p :: l₂) dt).on_ground = false) := by
  have hpre : vertical_pass pl (l₁ ++ p :: l₂) dt
      = l₂.foldl vert_hit (vert_hit (vshift pl dt) p) := by
    rw [vertical_pass, List.foldl_append,
      foldl_vert_hit_of_no_hit l₁ (vshift pl dt) hfirst, List.foldl_cons]
  rcases lt_trichotomy pl.vy 0 with hv | hv | hv
  · have hstep : vert_hit (vshift pl dt) p =
        { pl with
          rect := { pl.rect with y := p.rect.y + p.rect.h },
          on_ground := false,
          vy := 0,
          y := ((p.rect.y + p.rect.h : ℤ) : ℚ) } := by
      have e : (vshift pl dt).vy = pl.vy := rfl
      unfold vert_hit
      rw [if_pos hp, e, if_neg (lt_asymm hv), if_pos hv]
      rfl
    rw [hpre, hstep, foldl_vert_hit_of_settled l₂ _ rfl rfl]
    exact ⟨rfl, rfl, fun h => absurd h (lt_asymm hv), fun _ => ⟨rfl, rfl⟩,
      fun h => absurd h (ne_of_lt hv)⟩
  · have hstep : vert_hit (vshift pl dt) p =
        { pl with
          rect := { pl.rect with y := pl.rect.y + pyInt (pl.vy * dt) },
          on_ground := false,
          vy := 0,
          y := ((pl.rect.y + pyInt (pl.vy * dt) : ℤ) : ℚ) } := by
      have e : (vshift pl dt).vy = pl.vy := rfl
      unfold vert_hit
      rw [if_pos hp, e, if_neg (by rw [hv]; exact lt_irrefl 0),
        if_neg (by rw [hv]; exact lt_irrefl 0)]
      rfl
    rw [hpre, hstep, foldl_vert_hit_of_settled l₂ _ rfl rfl]
    exact ⟨rfl, rfl, fun h => absurd h (by rw [hv]; exact lt_irrefl 0),
      fun h => absurd h (by rw [hv]; exact lt_irrefl 0), fun _ => ⟨rfl, rfl⟩⟩
  · have hstep : vert_hit (vshift pl dt) p =
        { pl with
          rect := { pl.rect with y := p.rect.y - pl.rect.h },
          on_ground := true,
          vy := 0,
          y := ((p.rect.y - pl.rect.h : ℤ) : ℚ) } := by
      have e : (vshift pl dt).vy = pl.vy := rfl
      unfold vert_hit
      rw [if_pos hp, e, if_pos hv]
      rfl
    rw [hpre, hstep, foldl_vert_hit_of_settled l₂ _ rfl rfl]
    exact ⟨rfl, rfl, fun _ => ⟨rfl, rfl⟩, fun h => absurd h (lt_asymm hv),
      fun h => absurd h (ne_of_gt hv)⟩

/-- Concrete fixture for C3: a falling player whose displaced box overlaps
both platforms below. -/
def c3pl : Player :=
  { x := 0, y := 0, w := 36, h := 52, vx := 0, vy := 10, on_ground := false,
    rect := { x := 0, y := 0, w := 36, h := 52 } }

/-- First platform in stored order for the C3 fixture (top edge 50). -/
def c3pA : Platform := Platform.init 0 50 100 20 false

/-- Last platform in stored order for the C3 fixture (top edge 40). -/
def c3pB : Platform := Platform.init 0 40 100 20 false

/-- Claim C3, counterexample to the tie-break as stated: both platforms
overlap the displaced box of a falling player, yet the final bottom edge
equals the FIRST platform's top edge (50), not the last one's (40) — the
last overlapping platform does not determine the snapped position. -/
theorem vertical_pass_last_does_not_win :
    0 < c3pl.vy ∧
      colliderect (vshift c3pl 1).rect c3pA.rect = true ∧
      colliderect (vshift c3pl 1).rect c3pB.rect = true ∧
      c3pA.rect.y = 50 ∧
      c3pB.rect.y = 40 ∧
      (vertical_pass c3pl [c3pA, c3pB] 1).rect.y
          + (vertical_pass c3pl [c3pA, c3pB] 1).rect.h = c3pA.rect.y ∧
      (vertical_pass c3pl [c3pA, c3pB] 1).rect.y
          + (vertical_pass c3pl [c3pA, c3pB] 1).rect.h ≠ c3pB.rect.y := by
  norm_num [vertical_pass, vert_hit, vshift, colliderect, pyInt, c3pl, c3pA, c3pB,
    Platform.init, List.foldl]

/-- Witness for C3 on the concrete fixture: the first platform settles the
landing. -/
theorem vertical_pass_first_overlap_witness :
    (vertical_pass c3pl ([] ++ c3pA :: [c3pB]) 1).rect.y = c3pA.rect.y - c3pl.rect.h ∧
      (vertical_pass c3pl ([] ++ c3pA :: [c3pB]) 1).on_ground = true ∧
      (vertical_pass c3pl ([] ++ c3pA :: [c3pB]) 1).vy = 0 :=
  have h := vertical_pass_first_overlap c3pl 1 [] [c3pB] c3pA (by simp)
    (by norm_num [vshift, colliderect, pyInt, c3pl, c3pA, Platform.init])
  ⟨(h.2.2.1 (by norm_num [c3pl])).1, (h.2.2.1 (by norm_num [c3pl])).2, h.1⟩

/-! ## Claim C2 -/

/-- The C2 scenario state: the Body at rest on the ground platform with
its bottom edge (y + 52) on the platform's top edge
(SCREEN_HEIGHT - 40 = 520), so y = 468. -/
def restPlayer : Player :=
  { x := 120, y := 468, w := 36, h := 52, vx := 0, vy := 0, on_ground := true,
    rect := { x := 120, y := 468, w := 36, h := 52 } }

/-- One C2 tick: `Player.physics` then `resolve_collisions` against the
initial world's platforms, with no input and `dt = 1/60`. -/
def restTick (pl : Player) : Player :=
  resolve_collisions (pl.physics (1/60)) World.init.platforms (1/60)

/-- Claim C2, counterexample: one tick from rest leaves `on_ground =
false` and `vy = GRAVITY*(1/60) = 100/3 ≠ 0` — the integer-truncated
displacement is 0, the rect only touches the platform's top edge, and
edge contact does not collide. -/
theorem rest_one_tick_counterexample :
    (restTick restPlayer).on_ground = false ∧ (restTick restPlayer).vy ≠ 0 := by
  norm_num [restTick, restPlayer, resolve_collisions, vertical_pass, horizontal_pass,
    vert_hit, horiz_hit, vshift, hshift, Player.physics, World.init, Platform.init,
    colliderect, pyInt, GRAVITY, SCREEN_HEIGHT, List.foldl]

/-- Claim C2 (amended): one tick from rest leaves `on_ground = false` and
`vy = 100/3`, with the bounding box unchanged (still sitting on the
platform's top edge); on the second tick the accumulated fall moves the
box into the platform, and the Body re-lands with `on_ground = true` and
`vy = 0`. -/
theorem rest_tick_oscillates :
    (restTick restPlayer).on_ground = false ∧
      (restTick restPlayer).vy = 100/3 ∧
      (restTick restPlayer).rect = restPlayer.rect ∧
      (restTick (restTick restPlayer)).on_ground = true ∧
      (restTick (restTick restPlayer)).vy = 0 ∧
      (restTick (restTick restPlayer)).rect = restPlayer.rect := by
  norm_num [restTick, restPlayer, resolve_collisions, vertical_pass, horizontal_pass,
    vert_hit, horiz_hit, vshift, hshift, Player.physics, World.init, Platform.init,
    colliderect, pyInt, GRAVITY, SCREEN_HEIGHT, List.foldl]

/-! ## Claim C5 -/

/-- The generation invariant: a nonempty platform list in which each
consecutive platform starts at least `PLATFORM_MIN_GAP = 60` past the
previous platform's right edge, all widths are positive, and the frontier
`max_x` is the last platform's right edge. -/
def GenInv (w : World) : Prop :=
  w.platforms ≠ [] ∧
    List.Chain' (fun p q => p.x + p.w + 60 ≤ q.x) w.platforms ∧
    (∀ p ∈ w.platforms, 0 < p.w) ∧
    (∀ p, w.platforms.getLast? = some p → w.max_x = p.x + p.w)

/-- `randint a b` always lands in `[a, b]`. -/
lemma randint_mem (a b : ℤ) (g : Rng) (hab : a ≤ b) :
    a ≤ (randint a b g).1 ∧ (randint a b g).1 ≤ b := by
  have hb : b - a + 1 ≠ 0 := by omega
  have h1 : 0 ≤ ((g.next.1 : ℤ)) % (b - a + 1) := Int.emod_nonneg _ hb
  have h2 : ((g.next.1 : ℤ)) % (b - a + 1) < b - a + 1 :=
    Int.emod_lt_of_pos _ (by omega)
  constructor <;> simp only [randint] <;> omega

/-- Appending one platform past the frontier plus the minimum gap, with
positive width, preserves the generation invariant. -/
lemma genInv_append (w : World) (p : Platform)
    (hx : w.max_x + 60 ≤ p.x) (hw : 0 < p.w) (hinv : GenInv w) :
    GenInv { platforms := w.platforms ++ [p], max_x := p.x + p.w } := by
  obtain ⟨hne, hchain, hwpos, hlast⟩ := hinv
  refine ⟨by simp, ?_, ?_, ?_⟩
  · rw [List.chain'_append]
    refine ⟨hchain, List.chain'_singleton p, ?_⟩
    intro q hq r hr
    have hr' : p = r := by simpa using hr
    have hq' : w.platforms.getLast? = some q := hq
    have hqx := hlast q hq'
    subst hr'
    linarith
  · intro q hq
    rcases List.mem_append.1 hq with hh | hh
    · exact hwpos q hh
    · have : q = p := by simpa using hh
      subst this
      exact hw
  · intro q hq
    have hlp : (w.platforms ++ [p]).getLast? = some p := List.getLast?_concat _
    rw [hlp] at hq
    cases hq
    rfl

/-- One generation step preserves the invariant. -/
lemma genInv_gen_step (w : World) (g : Rng) (h : GenInv w) : GenInv (w.gen_step g).1 := by
  refine genInv_append w _ ?_ ?_ h
  · show w.max_x + 60 ≤ w.max_x
      + (((randint PLATFORM_MIN_GAP PLATFORM_MAX_GAP
          (randint PLATFORM_MIN_WIDTH PLATFORM_MAX_WIDTH g).2).1 : ℤ) : ℚ)
    have hg := (randint_mem PLATFORM_MIN_GAP PLATFORM_MAX_GAP
      (randint PLATFORM_MIN_WIDTH PLATFORM_MAX_WIDTH g).2
      (by norm_num [PLATFORM_MIN_GAP, PLATFORM_MAX_GAP])).1
    rw [PLATFORM_MIN_GAP] at hg
    have : ((60 : ℤ) : ℚ)
        ≤ (((randint PLATFORM_MIN_GAP PLATFORM_MAX_GAP
            (randint PLATFORM_MIN_WIDTH PLATFORM_MAX_WIDTH g).2).1 : ℤ) : ℚ) := by
      exact_mod_cast hg
    push_cast at this
    linarith
  · show (0 : ℚ)
      < (((randint PLATFORM_MIN_WIDTH PLATFORM_MAX_WIDTH g).1 : ℤ) : ℚ)
    have hg := (randint_mem PLATFORM_MIN_WIDTH PLATFORM_MAX_WIDTH g
      (by norm_num [PLATFORM_MIN_WIDTH, PLATFORM_MAX_WIDTH])).1
    rw [PLATFORM_MIN_WIDTH] at hg
    have : ((60 : ℤ) : ℚ)
        ≤ (((randint PLATFORM_MIN_WIDTH PLATFORM_MAX_WIDTH g).1 : ℤ) : ℚ) := by
      exact_mod_cast hg
    push_cast at this
    linarith

/-- The fuel-unrolled `generate_until` preserves the invariant at every
fuel. -/
lemma genInv_generate_until (limit : ℚ) (fuel : ℕ) :
    ∀ (w : World) (g : Rng), GenInv w → GenInv (w.generate_until limit g fuel).1 := by
  induction fuel with
  | zero => exact fun w g h => h
  | succ n ih =>
    intro w g h
    show GenInv (if w.max_x < limit then
        (w.gen_step g).1.generate_until limit (w.gen_step g).2 n
      else (w, g)).1
    by_cases hc : w.max_x < limit
    · rw [if_pos hc]
      exact ih _ _ (genInv_gen_step w g h)
    · rw [if_neg hc]
      exact h

/-- A sequence of `generate_until` calls: each entry supplies the limit,
the random source, and the loop fuel of one call. -/
def applyGens : World → List (ℚ × Rng × ℕ) → World
  | w, [] => w
  | w, c :: cs => applyGens (w.generate_until c.1 c.2.1 c.2.2).1 cs

/-- Every sequence of calls preserves the invariant. -/
lemma genInv_applyGens (calls : List (ℚ × Rng × ℕ)) :
    ∀ w : World, GenInv w → GenInv (applyGens w calls) := by
  induction calls with
  | nil => exact fun w h => h
  | cons c cs ih =>
    intro w h
    exact ih _ (genInv_generate_until c.1 c.2.2 w c.2.1 h)

/-- The fresh world satisfies the invariant. -/
lemma genInv_init : GenInv World.init := by
  refine ⟨by simp [World.init], by simp [World.init], ?_, ?_⟩
  · intro p hp
    have : p = Platform.init (-1000) (SCREEN_HEIGHT - 40) 1500 80 false := by
      simpa [World.init] using hp
    subst this
    norm_num [Platform.init]
  · intro p hp
    have : (World.init.platforms).getLast?
        = some (Platform.init (-1000) (SCREEN_HEIGHT - 40) 1500 80 false) := rfl
    rw [this] at hp
    cases hp
    rfl

/-- A gap-chain with positive widths is strictly increasing in `x`. -/
lemma chain'_lt_of_gap : ∀ l : List Platform, (∀ p ∈ l, 0 < p.w) →
    List.Chain' (fun p q => p.x + p.w + 60 ≤ q.x) l →
    List.Chain' (fun p q => p.x < q.x) l := by
  intro l
  induction l with
  | nil => exact fun _ _ => List.chain'_nil
  | cons a l ih =>
    intro hw hc
    cases l with
    | nil => exact List.chain'_singleton a
    | cons b l' =>
      rw [List.chain'_cons] at hc ⊢
      refine ⟨?_, ih (fun p hp => hw p (List.mem_cons_of_mem a hp)) hc.2⟩
      have hwa : 0 < a.w := hw a (List.mem_cons_self _ _)
      linarith [hc.1]

/-- Claim C5: after any sequence of `generate_until` calls on a fresh
World, the platforms are strictly ordered by `x`, each platform's left
edge is at least the minimum gap (60) past the previous platform's right
edge (the previous frontier), and `max_x` is the rightmost platform's
right edge. -/
theorem generate_until_invariant (calls : List (ℚ × Rng × ℕ)) :
    List.Chain' (fun p q => p.x < q.x) (applyGens World.init calls).platforms ∧
      List.Chain' (fun p q => p.x + p.w + 60 ≤ q.x) (applyGens World.init calls).platforms ∧
      ∀ p, (applyGens World.init calls).platforms.getLast? = some p →
        (applyGens World.init calls).max_x = p.x + p.w := by
  obtain ⟨hne, hchain, hwpos, hlast⟩ := genInv_applyGens calls World.init genInv_init
  exact ⟨chain'_lt_of_gap _ hwpos hchain, hchain, hlast⟩

/-- Witness for C5 with the empty call sequence: the frontier of the
fresh world is the ground platform's right edge. -/
theorem generate_until_invariant_witness :
    (applyGens World.init []).max_x
      = (Platform.init (-1000) (SCREEN_HEIGHT - 40) 1500 80 false).x
        + (Platform.init (-1000) (SCREEN_HEIGHT - 40) 1500 80 false).w :=
  (generate_until_invariant []).2.2
    (Platform.init (-1000) (SCREEN_HEIGHT - 40) 1500 80 false) rfl

/-! ## Claim C1 -/

/-- Fixture for C1: a temporary platform overlapped by the player's box
from creation on. -/
def c1plat : Platform := Platform.init 0 0 100 20 true

/-- Player fixture for C1, standing on the temporary platform. -/
def c1pl : Player := Player.init 0 0

/-- World fixture for C1. -/
def c1w : World := { platforms := [c1plat], max_x := 100 }

/-- Claim C1, evaluated at the failing input: the timer is created at 2.0
(not 0), so with the player touching the platform from creation, two
1-second updates (2.0 s since activation) leave the platform alive with
timer 4.0, and the third (3.0 s since activation) removes it — the timer
reaches `TEMP_PLATFORM_LIFETIME = 5.0` after only 3.0 s accumulated since
activation. -/
theorem temp_platform_removed_three_seconds_after_activation :
    c1plat.timer = 2 ∧
      ((c1w.update 1 c1pl).update 1 c1pl).platforms.map Platform.timer = [4] ∧
      (((c1w.update 1 c1pl).update 1 c1pl).update 1 c1pl).platforms = [] ∧
      (3 : ℚ) < TEMP_PLATFORM_LIFETIME := by
  norm_num [c1w, c1pl, c1plat, World.update, Platform.touch_update, Platform.init,
    Player.init, colliderect, pyInt, TEMP_PLATFORM_LIFETIME, List.filter, List.map]

/-! ## Simulation loop (`main`) -/

/-- The per-round state of the `main` loop (rendering and the quit flag
are presentation-side and omitted). -/
structure Game where
  in_menu : Bool
  highscore : ℤ
  score : ℤ
  player : Player
  world : World
  camera_x : ℚ

/-- The per-tick external input: the movement/jump/reset intents, the tick
delta, and the draws and fuel feeding `generate_until`. -/
structure TickInput where
  left : Bool
  right : Bool
  jump_pressed : Bool
  reset : Bool
  dt : ℚ
  rng : Rng
  fuel : ℕ

/-- The state `main` sets up before the loop. -/
def Game.init : Game :=
  { in_menu := false, highscore := 0, score := 0,
    player := Player.init 120 (SCREEN_HEIGHT - 180), world := World.init, camera_x := 0 }

/-- The event-handling prefix of one loop iteration: a Space press while
in the menu restarts the round — fresh player and world, camera and score
zeroed, the highscore kept. -/
def Game.handle_reset (g : Game) (reset : Bool) : Game :=
  if g.in_menu && reset then
    { g with
      in_menu := false,
      player := Player.init 120 (SCREEN_HEIGHT - 180),
      world := World.init,
      camera_x := 0,
      score := 0 }
  else g

/-- The playing branch of one loop iteration: jump intent, input,
physics, collision resolution, world generation/aging/cleanup, camera
follow, score computation (`int(player.x // 10)`), and the death check
(`player.y > SCREEN_HEIGHT + 400` latches the menu and the highscore). -/
def Game.play_step (g : Game) (inp : TickInput) : Game :=
  let pl0 := if inp.jump_pressed then g.player.jump else g.player
  let pl1 := pl0.apply_input inp.left inp.right inp.dt
  let pl2 := pl1.physics inp.dt
  let pl3 := resolve_collisions pl2 g.world.platforms inp.dt
  let w1 := (g.world.generate_until (g.camera_x + GEN_AHEAD) inp.rng inp.fuel).1
  let w2 := w1.update inp.dt pl3
  let w3 := w2.cleanup g.camera_x
  let target_cam := pl3.x - SCREEN_WIDTH * (3/10)
  let cam := g.camera_x + (target_cam - g.camera_x) * min 1 (8 * inp.dt)
  let score := ⌊pl3.x / 10⌋
  let dead := SCREEN_HEIGHT + 400 < pl3.y
  { in_menu := if dead then true else g.in_menu,
    highscore := if dead then max g.highscore score else g.highscore,
    score := score,
    player := pl3,
    world := w3,
    camera_x := cam }

/-- One iteration of the `main` loop: events first, then either the menu
branch (which mutates nothing) or the playing branch. -/
def Game.tick (g : Game) (inp : TickInput) : Game :=
  let g1 := g.handle_reset inp.reset
  if g1.in_menu then g1 else g1.play_step inp

/-! ## Claim C9 -/

/-- Claim C9: on every tick taken while alive the displayed score is
`⌊player.x / 10⌋` (including the death tick, whose score is latched, and
whose death condition is exactly what raises the menu flag); while in the
menu a tick without reset changes nothing, so the score stays frozen; a
reset while in the menu reconstructs the round with score 0, a fresh
player, world and camera, keeping the highscore. -/
theorem score_law (g : Game) (inp : TickInput) :
    (g.in_menu = false →
      (g.tick inp).score = ⌊(g.tick inp).player.x / 10⌋ ∧
      ((g.tick inp).in_menu = true ↔ SCREEN_HEIGHT + 400 < (g.tick inp).player.y)) ∧
    (g.in_menu = true → inp.reset = false → g.tick inp = g) ∧
    (g.in_menu = true → inp.reset = true →
      (g.handle_reset inp.reset).score = 0 ∧
      (g.handle_reset inp.reset).player = Player.init 120 (SCREEN_HEIGHT - 180) ∧
      (g.handle_reset inp.reset).world = World.init ∧
      (g.handle_reset inp.reset).camera_x = 0 ∧
      (g.handle_reset inp.reset).in_menu = false ∧
      (g.handle_reset inp.reset).highscore = g.highscore) := by
  refine ⟨?_, ?_, ?_⟩
  · intro h
    have ht : g.tick inp = g.play_step inp := by
      simp [Game.tick, Game.handle_reset, h]
    rw [ht]
    refine ⟨rfl, ?_⟩
    rw [show (g.play_step inp).in_menu
        = (if SCREEN_HEIGHT + 400 < (g.play_step inp).player.y then true else g.in_menu)
      from rfl]
    by_cases hd : SCREEN_HEIGHT + 400 < (g.play_step inp).player.y
    · simp [hd]
    · simp [hd, h]
  · intro hm hr
    simp [Game.tick, Game.handle_reset, hm, hr]
  · intro hm hr
    rw [hr]
    simp [Game.handle_reset, hm]

/-- Zero random stream for concrete inputs. -/
def rngZero : Rng := { stream := fun _ => 0, idx := 0 }

/-- A tick with no intents and `dt = 1/60`. -/
def noInput : TickInput :=
  { left := false, right := false, jump_pressed := false, reset := false,
    dt := 1/60, rng := rngZero, fuel := 0 }

/-- The no-intent tick with the reset intent raised. -/
def resetInput : TickInput :=
  { left := false, right := false, jump_pressed := false, reset := true,
    dt := 1/60, rng := rngZero, fuel := 0 }

/-- A game-over state with a nonzero frozen score. -/
def menuGame : Game :=
  { in_menu := true, highscore := 37, score := 37,
    player := Player.init 120 (SCREEN_HEIGHT - 180), world := World.init, camera_x := 0 }

/-- Witness for C9: an alive tick computes the score from `player.x`, a
menu tick without reset freezes everything, and a reset zeroes the
score. -/
theorem score_law_witness :
    (Game.init.tick noInput).score = ⌊(Game.init.tick noInput).player.x / 10⌋ ∧
      Game.tick menuGame noInput = menuGame ∧
      (menuGame.handle_reset true).score = 0 :=
  ⟨((score_law Game.init noInput).1 rfl).1,
    (score_law menuGame noInput).2.1 rfl rfl,
    ((score_law menuGame resetInput).2.2 rfl rfl).1⟩

end JumpRun
